import Mathlib

/-!
Verification of the raigeki L4 reverse proxy against its design document.

The development shallowly embeds the relevant Rust sources:

* `raigeki/src/pi/conn.rs` — the statistical DDoS detector;
* `raigeki/src/service/forward.rs` — the connection admission pipeline,
  the reject path of `process_new`, and the in-relay rate-limit step;
* `raigeki-mcproto/src/protocol/types/varint.rs`, `.../types/string.rs`,
  `.../packets/play/disconnect.rs` — the wire codec.

Embedding conventions:

* Rust `u64`/`u32`/`i16` values are embedded as `Nat`/`Int` with explicit
  wrapping (`% 2 ^ 32`, `sub64`) exactly where the source can overflow.
* Rust `f64`/`f32` values are embedded as exact rationals (`ℚ`); the
  detector's arithmetic (sums, means, divisions, comparisons) is embedded
  exactly, not with rounding.
* The source compares values against `mean + sigma * stddev` where
  `stddev` is a square root.  To keep every definition executable the
  comparison is embedded in its square-free form, which is equivalent
  over the reals whenever `sigma ≥ 0` (every call site uses `sigma = 3.0`);
  the equivalence is what the corresponding theorems prove.
* Effectful code (socket writes, cache writes) is embedded as a pure
  function from an environment describing the external world's replies to
  an outcome plus a trace of the effects attempted.
-/

/-! ## DDoS detector (`raigeki/src/pi/conn.rs`) -/

/-- `ConnectionMetrics` from `pi/conn.rs`: the cumulative counter snapshot
`(total_conns, incoming_attempts, request_total)` handed to the detector. -/
structure ConnectionMetrics where
  total_conns : ℕ
  incoming_attempts : ℕ
  request_total : ℕ
deriving DecidableEq, Repr

/-- `AggregatedMetrics` from `pi/conn.rs`; `success_rate` is an `f64` in the
source, embedded as an exact rational. -/
structure AggregatedMetrics where
  total_conns : ℕ
  incoming_attempts : ℕ
  success_rate : ℚ
  request_total : ℕ
deriving DecidableEq, Repr

/-- `DDoSDetector` state from `pi/conn.rs`.  The `VecDeque` history is a list
whose head is the oldest entry and whose last element is `back()`. -/
structure DDoSDetector where
  aggregated_history : List AggregatedMetrics
  max_history_size : ℕ
  sigma_threshold : ℚ
  packet_flood_threshold : ℚ
deriving DecidableEq, Repr

/-- `DDoSDetector::new`. -/
def DDoSDetector.new (max_history_size : ℕ) (sigma_threshold : ℚ)
    (packet_flood_threshold : ℚ) : DDoSDetector :=
  { aggregated_history := []
    max_history_size := max_history_size
    sigma_threshold := sigma_threshold
    packet_flood_threshold := packet_flood_threshold }

/-- Rust `u64` subtraction in release mode (wrapping).  Operands are always
`< 2 ^ 64` where this is used. -/
def sub64 (a b : ℕ) : ℕ :=
  if b ≤ a then a - b else a + 2 ^ 64 - b

/-- `DDoSDetector::calculate_success_rate`: `100` when `incoming_attempts`
is zero, otherwise `total_conns / incoming_attempts * 100`. -/
def calculate_success_rate (m : ConnectionMetrics) : ℚ :=
  if m.incoming_attempts = 0 then 100
  else ((m.total_conns : ℚ) / (m.incoming_attempts : ℚ)) * 100

/-- `DDoSDetector::add_metrics`.  Mirrors the source exactly: when the
history is nonempty, `total_conns` is kept raw while `incoming_attempts`
and `request_total` are reduced by the corresponding fields of the
previously *stored aggregate* (`back()`), and the FIFO bound pops the
front before pushing. -/
def DDoSDetector.add_metrics (d : DDoSDetector) (metrics : ConnectionMetrics) :
    DDoSDetector :=
  let agg_metrics : ConnectionMetrics :=
    match d.aggregated_history.getLast? with
    | some agg =>
      { total_conns := metrics.total_conns
        incoming_attempts := sub64 metrics.incoming_attempts agg.incoming_attempts
        request_total := sub64 metrics.request_total agg.request_total }
    | none => metrics
  let success_rate := calculate_success_rate agg_metrics
  let aggregated : AggregatedMetrics :=
    { total_conns := agg_metrics.total_conns
      incoming_attempts := agg_metrics.incoming_attempts
      request_total := agg_metrics.request_total
      success_rate := success_rate }
  let history :=
    if d.max_history_size ≤ d.aggregated_history.length then
      d.aggregated_history.tail
    else d.aggregated_history
  { d with aggregated_history := history ++ [aggregated] }

/-- The error type of the detector's statistics helpers.  In the source the
helpers return `anyhow::Error` built from `raigeki_error::Error::InsufficientData`;
only that variant is ever constructed. -/
inductive AnyhowErr where
  | insufficientData
deriving DecidableEq, Repr

/-- `statistical_mean` from `pi/conn.rs`: `InsufficientData` on an empty
slice, otherwise `sum / len`. -/
def statistical_mean (data : List ℚ) : Except AnyhowErr ℚ :=
  if data.isEmpty then .error .insufficientData
  else .ok (data.sum / (data.length : ℚ))

/-- The *square* of `standard_deviation` from `pi/conn.rs` (the variance the
source takes the square root of): `InsufficientData` when fewer than 2
elements, otherwise `Σ (mean - v)² / len`.  The square root itself is kept
out of the definition so that it stays executable; every comparison against
the standard deviation is embedded in the equivalent square-free form (see
`gt_mean_plus_sigma_stddev`). -/
def standard_deviation_sq (data : List ℚ) (mean : ℚ) : Except AnyhowErr ℚ :=
  if data.length < 2 then .error .insufficientData
  else .ok ((data.map (fun value => (mean - value) ^ 2)).sum / (data.length : ℚ))

/-- Embeds the source comparison `x > mean + sigma * stddev` with
`stddev = sqrt var`: for `sigma ≥ 0` and `var ≥ 0` (always the case at the
call sites) it is exactly equivalent to
`0 < x - mean ∧ sigma² * var < (x - mean)²` over the reals, which is
decidable over `ℚ`. -/
def gt_mean_plus_sigma_stddev (x mean sigma variance : ℚ) : Bool :=
  decide (0 < x - mean ∧ sigma ^ 2 * variance < (x - mean) ^ 2)

/-- Embeds `x < mean - sigma * stddev`, square-free as in
`gt_mean_plus_sigma_stddev`. -/
def lt_mean_minus_sigma_stddev (x mean sigma variance : ℚ) : Bool :=
  decide (0 < mean - x ∧ sigma ^ 2 * variance < (mean - x) ^ 2)

/-- `DDoSDetector::is_packet_flood`: compares the current `request_total`
against `median × packet_flood_threshold`, where the median is the element
at index `len / 2` of the ascending sort of the historical `request_total`
values; `false` on an empty history. -/
def DDoSDetector.is_packet_flood (d : DDoSDetector) (current_agg : AggregatedMetrics) :
    Bool :=
  if d.aggregated_history.isEmpty then false
  else
    let historical_packets :=
      List.insertionSort (· ≤ ·) (d.aggregated_history.map (fun m => m.request_total))
    let median_packets : ℚ := (historical_packets.getD (historical_packets.length / 2) 0 : ℚ)
    decide (median_packets * d.packet_flood_threshold < (current_agg.request_total : ℚ))

/-- `DDoSDetector::check_moderate_increase` (the `f32` casts of the source
are embedded exactly). -/
def DDoSDetector.check_moderate_increase (d : DDoSDetector) (current : ℚ)
    (selector : AggregatedMetrics → ℚ) (threshold : ℚ) : Except AnyhowErr Bool :=
  (statistical_mean (d.aggregated_history.map selector)).bind fun mean =>
    .ok (decide (mean * threshold < current))

/-- `DDoSDetector::check_moderate_decrease`. -/
def DDoSDetector.check_moderate_decrease (d : DDoSDetector) (current : ℚ)
    (selector : AggregatedMetrics → ℚ) (threshold : ℚ) : Except AnyhowErr Bool :=
  (statistical_mean (d.aggregated_history.map selector)).bind fun mean =>
    .ok (decide (current < mean * threshold))

/-- `DDoSDetector::check_combined_attack`: below 3 history entries returns
`false`; otherwise scores the three moderate signals (thresholds `1.5`,
`0.6`, `2.0`) and reports an attack when at least 2 of 3 hold. -/
def DDoSDetector.check_combined_attack (d : DDoSDetector) (current_agg : AggregatedMetrics) :
    Except AnyhowErr Bool :=
  if d.aggregated_history.length < 3 then .ok false
  else
    (d.check_moderate_increase (current_agg.incoming_attempts : ℚ)
        (fun m => (m.incoming_attempts : ℚ)) (3 / 2)).bind fun s1 =>
    (d.check_moderate_decrease current_agg.success_rate
        (fun m => m.success_rate) (3 / 5)).bind fun s2 =>
    (d.check_moderate_increase (current_agg.request_total : ℚ)
        (fun m => (m.request_total : ℚ)) 2).bind fun s3 =>
    .ok (decide (2 ≤ (if s1 then 1 else 0) + (if s2 then 1 else 0)
      + (if s3 then (1 : ℕ) else 0)))

/-- `DDoSDetector::analyze`.  Below 2 history entries: `Ok(false)`.
Otherwise `current` is `back()` (the last stored entry, included in all the
statistics), packet flood short-circuits to `Ok(true)`, and the verdict is
the disjunction of the rate / success / packet anomalies and the combined
check. -/
def DDoSDetector.analyze (d : DDoSDetector) : Except AnyhowErr Bool :=
  if d.aggregated_history.length < 2 then .ok false
  else
    match d.aggregated_history.getLast? with
    | none => .ok false
    | some current_agg =>
      if d.is_packet_flood current_agg then .ok true
      else
        let historical_rates := d.aggregated_history.map (fun m => (m.incoming_attempts : ℚ))
        let historical_success_rates := d.aggregated_history.map (fun m => m.success_rate)
        let historical_packets := d.aggregated_history.map (fun m => (m.request_total : ℚ))
        (statistical_mean historical_rates).bind fun mean_rate =>
        (standard_deviation_sq historical_rates mean_rate).bind fun var_rate =>
        (statistical_mean historical_success_rates).bind fun mean_success =>
        (standard_deviation_sq historical_success_rates mean_success).bind fun var_success =>
        (statistical_mean historical_packets).bind fun mean_packets =>
        (standard_deviation_sq historical_packets mean_packets).bind fun var_packets =>
        let rate_anomaly := gt_mean_plus_sigma_stddev
          (current_agg.incoming_attempts : ℚ) mean_rate d.sigma_threshold var_rate
        let success_anomaly := lt_mean_minus_sigma_stddev
          current_agg.success_rate mean_success d.sigma_threshold var_success
        let packet_anomaly := gt_mean_plus_sigma_stddev
          (current_agg.request_total : ℚ) mean_packets d.sigma_threshold var_packets
        (d.check_combined_attack current_agg).bind fun combined =>
        .ok (rate_anomaly || success_anomaly || packet_anomaly || combined)

/-! Pure views of the statistics used to state theorems about `analyze`. -/

/-- Mean of a list of rationals (the `Ok` payload of `statistical_mean`). -/
def mean_of (data : List ℚ) : ℚ := data.sum / (data.length : ℚ)

/-- Population variance about `mean_of` (the `Ok` payload of
`standard_deviation_sq`). -/
def var_of (data : List ℚ) : ℚ :=
  (data.map (fun value => (mean_of data - value) ^ 2)).sum / (data.length : ℚ)

/-- The `incoming_attempts` history as rationals. -/
def DDoSDetector.rates (d : DDoSDetector) : List ℚ :=
  d.aggregated_history.map (fun m => (m.incoming_attempts : ℚ))

/-- The `success_rate` history. -/
def DDoSDetector.success_rates (d : DDoSDetector) : List ℚ :=
  d.aggregated_history.map (fun m => m.success_rate)

/-- The `request_total` history as rationals. -/
def DDoSDetector.packets (d : DDoSDetector) : List ℚ :=
  d.aggregated_history.map (fun m => (m.request_total : ℚ))

/-! ## Wire codec (`raigeki-mcproto/src/protocol/types`, `.../packets/play`) -/

/-- The error type of `raigeki-mcproto` as seen by `read_varint`
(`raigeki-mcproto/src/lib.rs` `PacketError`).  `read_exact` hitting the end
of input surfaces as an `Io(UnexpectedEof)` error; the `"VarInt too large"`
error is `Io(InvalidData)`. -/
inductive PacketErr where
  | ioUnexpectedEof
  | ioInvalidData
deriving DecidableEq, Repr

/-- The loop of `write_varint`, given structural fuel so that it reduces in
the kernel.  Five iterations always suffice for a `u32` pattern (each
iteration divides by 128); the fuel-exhausted branch is unreachable for
`value < 2 ^ 32`. -/
def write_varint_fuel : ℕ → ℕ → List ℕ
  | 0, value => [value]
  | fuel + 1, value =>
    if value < 128 then [value]
    else (value % 128 + 128) :: write_varint_fuel fuel (value / 128)

/-- `write_varint` from `protocol/types/varint.rs`, on the `u32` bit pattern
of the `i32` argument (`value < 2 ^ 32`).  The source's loop guard
`(value & !0x7F) == 0` is exactly `value < 128` on the pattern, the emitted
byte `(value & 0x7F) | 0x80` is `value % 128 + 128`, and
`(value as u32) >> 7` is `value / 128`. -/
def write_varint (value : ℕ) : List ℕ :=
  write_varint_fuel 5 value

instance {ε α : Type} [DecidableEq ε] [DecidableEq α] : DecidableEq (Except ε α)
  | .error e, .error f =>
    if h : e = f then .isTrue (by rw [h]) else .isFalse (fun c => by cases c; exact h rfl)
  | .error _, .ok _ => .isFalse (fun c => by cases c)
  | .ok _, .error _ => .isFalse (fun c => by cases c)
  | .ok a, .ok b =>
    if h : a = b then .isTrue (by rw [h]) else .isFalse (fun c => by cases c; exact h rfl)

/-- The loop body of `read_varint` from `protocol/types/varint.rs`.
`result` and `shift` are the accumulator and shift count; each step computes
`result |= (byte & 0x7F) << shift` in `i32` (embedded on the `u32` pattern,
hence the `% 2 ^ 32` truncation of the shifted group), increments the shift
by 7, stops when the continuation bit is clear, and fails with the
`InvalidData`-kind error once `shift >= 32` with the continuation bit still
set. -/
def read_varint_loop : List ℕ → ℕ → ℕ → Except PacketErr (ℕ × List ℕ)
  | [], _, _ => .error .ioUnexpectedEof
  | byte :: rest, result, shift =>
    let result := result ||| ((byte &&& 0x7F) <<< shift) % 2 ^ 32
    let shift := shift + 7
    if byte &&& 0x80 = 0 then .ok (result, rest)
    else if 32 ≤ shift then .error .ioInvalidData
    else read_varint_loop rest result shift

/-- `read_varint` from `protocol/types/varint.rs`: decodes a varint from the
front of the input, returning the decoded `u32` pattern and the unread
remainder of the input. -/
def read_varint (input : List ℕ) : Except PacketErr (ℕ × List ℕ) :=
  read_varint_loop input 0 0

/-- `write_string` from `protocol/types/string.rs`: appends the varint byte
count (`s.len() as i32`, i.e. the length modulo `2 ^ 32`) followed by the
UTF-8 bytes.  Strings are embedded as their UTF-8 byte lists. -/
def write_string (s : List ℕ) (out : List ℕ) : List ℕ :=
  out ++ write_varint (s.length % 2 ^ 32) ++ s

/-- `DisconnectPacket::serialize` from `protocol/packets/play/disconnect.rs`:
builds `[varint packet id 0x19][string reason]` and prepends the varint byte
count of that concatenation.  It is total: no length cap is applied and no
error path exists. -/
def DisconnectPacket.serialize (reason : List ℕ) : List ℕ :=
  let packet := write_string reason (write_varint 0x19)
  write_varint (packet.length % 2 ^ 32) ++ packet

/-- The frame layout claimed in the design document (§4.A / §8):
`[varint total length][varint packet id 0x19][varint body length][UTF-8 body]`,
stated independently of `DisconnectPacket.serialize` for comparison. -/
def claimed_disconnect_frame (reason : List ℕ) : List ℕ :=
  let body := write_varint 0x19 ++ write_varint (reason.length % 2 ^ 32) ++ reason
  write_varint (body.length % 2 ^ 32) ++ body

/-- UTF-8 bytes of a string. -/
def utf8Bytes (s : String) : List ℕ :=
  s.toUTF8.toList.map (fun b => b.toNat)

/-- Modelled from the spec: `raigeki_mcproto::login::DisconnectPacket`, the
packet type `forward.rs` actually constructs, is declared in
`protocol/packets/mod.rs` (`pub mod login;`) but its source file is not
under `src/`.  Per §4.A the Disconnect frame is
`[length][packet-id varint = 0x19][string = JSON body]`, which is exactly
what the in-tree `play::DisconnectPacket::serialize` produces; the login
variant is modelled as that serializer applied to the reason's UTF-8
bytes. -/
def login_disconnect_serialize (reason : String) : List ℕ :=
  DisconnectPacket.serialize (utf8Bytes reason)

/-! ## JSON body of the reject frame (`forward.rs` uses `serde_json::json!`) -/

/-- Lower-case hex digit, as `serde_json` emits in `\u00XX` escapes. -/
def hexDigit (n : ℕ) : Char :=
  if n < 10 then Char.ofNat (48 + n) else Char.ofNat (87 + n)

/-- `serde_json`'s escaping of a single character inside a JSON string. -/
def jsonEscapeChar (c : Char) : String :=
  if c = '"' then "\\\""
  else if c = '\\' then "\\\\"
  else if c = '\n' then "\\n"
  else if c = '\r' then "\\r"
  else if c = '\t' then "\\t"
  else if c.toNat = 8 then "\\b"
  else if c.toNat = 12 then "\\f"
  else if c.toNat < 32 then
    "\\u00" ++ String.singleton (hexDigit (c.toNat / 16))
      ++ String.singleton (hexDigit (c.toNat % 16))
  else String.singleton c

/-- `serde_json` escaping of a string body. -/
def jsonEscape (s : String) : String :=
  String.join (s.toList.map jsonEscapeChar)

/-- The serialized form of
`json!({"text": <text>, "color": "red", "bold": true}).to_string()` built in
`process_new`: `serde_json`'s default map is ordered by key
(`bold < color < text`), producing
`{"bold":true,"color":"red","text":"<text>"}`. -/
def chat_json (text : String) : String :=
  "\x7b\"bold\":true,\"color\":\"red\",\"text\":\"" ++ jsonEscape text ++ "\"\x7d"

/-! ## Admission pipeline (`raigeki/src/service/forward.rs`) -/

/-- The variants of `raigeki_error::Error` (`raigeki-error/src/error.rs`)
reachable from the admission pipeline and the relay.  IP addresses are
embedded as their textual form; the `MemcacheError` payload of
`MemcachedError` is abstracted away. -/
inductive VError where
  | invalidConnection
  | ipBlockedInCache (ip : String)
  | asnBlocked (ip : String)
  | countryBlocked (ip : String)
  | internalError (msg : String)
  | memcachedError
deriving DecidableEq, Repr

/-- The `Display` messages of `raigeki_error::Error` (the `#[error(...)]`
attributes in `error.rs`), used as the `"text"` of the reject frame. -/
def VError.message : VError → String
  | .invalidConnection => "invalid connection"
  | .ipBlockedInCache ip => "IP address is blocked ip=" ++ ip
  | .asnBlocked ip => "ASN is blocked ip=" ++ ip
  | .countryBlocked ip => "Country is blocked ip=" ++ ip
  | .internalError msg => "Internal error: " ++ msg
  | .memcachedError => "memcached: error"

/-- How a run of `is_valid_connection` ends: `Ok(())`, `Err(e)`, or a panic
(the source calls `.unwrap()` on the result of a cache `set`, so a failed
cache write aborts the task instead of producing a value). -/
inductive VOutcome where
  | ok
  | reject (e : VError)
  | panic
deriving DecidableEq, Repr

/-- The externally visible side effects of one validation run: GeoIP
consultations and attempted cache writes `(key, value, ttl_seconds)`. -/
inductive VEvent where
  | asnConsulted
  | countryConsulted
  | cacheWrite (key : String) (value : Int) (ttl : ℕ)
deriving DecidableEq, Repr

/-- The replies of the external world during one `is_valid_connection` run:
the `i16` cache status for the peer IP (`0` when the key is absent), the
two GeoIP lookup results (`Except` mirrors `Result`; the payload of a
lookup error is irrelevant to the pipeline, which applies `unwrap_or(true)`),
the current value of the `ddos_mode` gauge, and whether each cache `set`
would succeed. -/
structure ValidationEnv where
  cacheStatus : Int
  asnLookup : Except Unit Bool
  countryLookup : Except Unit Bool
  ddosMode : Int
  asnWriteOk : Bool
  countryWriteOk : Bool
deriving DecidableEq, Repr

/-- Rust's `Result::unwrap_or`. -/
def unwrapOr {ε α : Type} : Except ε α → α → α
  | .ok a, _ => a
  | .error _, d => d

/-- `MemcachedStatus::IpBlocked as i16` (`service/mod.rs`: discriminant 1). -/
def memcachedIpBlocked : Int := 1

/-- `MemcachedStatus::IpWhiteList as i16` (`service/mod.rs`: discriminant 2). -/
def memcachedIpWhiteList : Int := 2

/-- `ForwardApp::is_valid_connection` (`forward.rs`), as a function of the
peer IP and the environment's replies.  Mirrors the source order: cache
status check (`Blocked` rejects, `AllowListed` short-circuits to `Ok`),
ASN blacklist with `unwrap_or(true)` (a hit writes `Blocked` with TTL
`1 * 60 * 60` and rejects — the write result is `.unwrap()`ed, so a failed
write panics), then, only when `DDOS_MODE` is nonzero, the country
blacklist with the same pattern. -/
def is_valid_connection (ip : String) (env : ValidationEnv) :
    VOutcome × List VEvent :=
  if env.cacheStatus = memcachedIpBlocked then
    (.reject (.ipBlockedInCache ip), [])
  else if env.cacheStatus = memcachedIpWhiteList then
    (.ok, [])
  else if unwrapOr env.asnLookup true then
    if env.asnWriteOk then
      (.reject (.asnBlocked ip), [.asnConsulted, .cacheWrite ip memcachedIpBlocked 3600])
    else
      (.panic, [.asnConsulted, .cacheWrite ip memcachedIpBlocked 3600])
  else if env.ddosMode = 0 then
    (.ok, [.asnConsulted])
  else if unwrapOr env.countryLookup true then
    if env.countryWriteOk then
      (.reject (.countryBlocked ip),
        [.asnConsulted, .countryConsulted, .cacheWrite ip memcachedIpBlocked 3600])
    else
      (.panic, [.asnConsulted, .countryConsulted, .cacheWrite ip memcachedIpBlocked 3600])
  else
    (.ok, [.asnConsulted, .countryConsulted])

/-! ## `process_new` and the relay rate limiter (`forward.rs`) -/

/-- The socket-level actions `process_new` performs, in order. -/
inductive SocketAction where
  | writeClient (bytes : List ℕ)
  | flushClient
  | sleepMs (ms : ℕ)
  | dialUpstream
  | writeUpstreamHeader
  | relayPhase
  | panicAbort
deriving DecidableEq, Repr

/-- The environment of one `process_new` run: the validation environment
plus whether each subsequent fallible step would succeed. -/
structure ProcessEnv where
  validation : ValidationEnv
  clientWriteOk : Bool
  clientFlushOk : Bool
  dialOk : Bool
  haproxy : Bool
  headerOk : Bool
  headerErrMsg : String
deriving DecidableEq, Repr

/-- `ServerApp::process_new` for `ForwardApp` (`forward.rs`), as the ordered
trace of socket actions.  On a validation error the Disconnect frame for
the red/bold JSON body carrying the error's message is written, flushed
(each `.ok()?`, so a failure stops the trace), and the task sleeps 50 ms
before returning without dialing upstream.  On success the upstream is
dialed (`.ok()?`: a dial failure returns silently), the PROXY header is
written when configured (a header failure sends a Disconnect frame to the
client and returns), and the bidirectional relay starts. -/
def process_new (ip : String) (env : ProcessEnv) : List SocketAction :=
  match (is_valid_connection ip env.validation).1 with
  | .panic => [.panicAbort]
  | .reject e =>
    .writeClient (login_disconnect_serialize (chat_json e.message)) ::
      (if env.clientWriteOk then
        .flushClient :: (if env.clientFlushOk then [.sleepMs 50] else [])
      else [])
  | .ok =>
    .dialUpstream ::
      (if env.dialOk then
        (if env.haproxy then
          (if env.headerOk then [.writeUpstreamHeader, .relayPhase]
           else
             .writeUpstreamHeader ::
               .writeClient (login_disconnect_serialize (chat_json env.headerErrMsg)) ::
                 (if env.clientWriteOk then [.flushClient] else []))
         else [.relayPhase])
      else [])

/-- Whether a socket action is a client-socket write. -/
def SocketAction.isClientWrite : SocketAction → Bool
  | .writeClient _ => true
  | _ => false

/-- How one pass of the relay's rate-limit branch ends (`handle_connection`
in `forward.rs`): under the cap the relay continues; over the cap the IP is
cache-blocked and the client side is shut down (`return Ok(())`), but when
that cache write fails the `?` operator aborts the relay with the cache
error instead. -/
inductive RelayStep where
  | proceed
  | shutdownClean
  | errReturn (e : VError)
deriving DecidableEq, Repr

/-- The rate-limit branch of `handle_connection`: `curr_window_requests`
is the observed per-IP count in the sliding window and `mrpm` the
configured cap; `writeOk` tells whether the cache `set` would succeed.
Returns the step outcome and the attempted cache writes. -/
def rate_limit_check (mrpm curr : Int) (ip : String) (writeOk : Bool) :
    RelayStep × List VEvent :=
  if mrpm < curr then
    if writeOk then (.shutdownClean, [.cacheWrite ip memcachedIpBlocked 3600])
    else (.errReturn .memcachedError, [.cacheWrite ip memcachedIpBlocked 3600])
  else (.proceed, [])

/-! ## Spec-side definitions used for comparison -/

/-- The aggregation rule exactly as claim C4 / §4.D state it: every field of
the cumulative triple is turned into a delta against the previous
*cumulative* sample (tracked separately from the stored aggregates), the
first sample keeping its raw values, and the success rate is computed over
those deltas. -/
def claimed_delta (prev : Option ConnectionMetrics) (m : ConnectionMetrics) :
    ConnectionMetrics :=
  match prev with
  | none => m
  | some p =>
    { total_conns := sub64 m.total_conns p.total_conns
      incoming_attempts := sub64 m.incoming_attempts p.incoming_attempts
      request_total := sub64 m.request_total p.request_total }

/-- The history the claimed aggregation rule would store for a sequence of
cumulative samples (no bound applied; the compared runs are short). -/
def claimed_aggregate : Option ConnectionMetrics → List ConnectionMetrics →
    List AggregatedMetrics
  | _, [] => []
  | prev, m :: rest =>
    let d := claimed_delta prev m
    { total_conns := d.total_conns
      incoming_attempts := d.incoming_attempts
      success_rate := calculate_success_rate d
      request_total := d.request_total } :: claimed_aggregate (some m) rest

/-! ## Pure anomaly predicates (the five rules of §4.D, as implemented) -/

/-- Rule 2 (rate anomaly) of `analyze`, as a pure predicate of the state. -/
def DDoSDetector.rate_anomaly_b (d : DDoSDetector) (cur : AggregatedMetrics) : Bool :=
  gt_mean_plus_sigma_stddev (cur.incoming_attempts : ℚ) (mean_of d.rates)
    d.sigma_threshold (var_of d.rates)

/-- Rule 3 (success anomaly) of `analyze`. -/
def DDoSDetector.success_anomaly_b (d : DDoSDetector) (cur : AggregatedMetrics) : Bool :=
  lt_mean_minus_sigma_stddev cur.success_rate (mean_of d.success_rates)
    d.sigma_threshold (var_of d.success_rates)

/-- Rule 4 (packet anomaly) of `analyze`. -/
def DDoSDetector.packet_anomaly_b (d : DDoSDetector) (cur : AggregatedMetrics) : Bool :=
  gt_mean_plus_sigma_stddev (cur.request_total : ℚ) (mean_of d.packets)
    d.sigma_threshold (var_of d.packets)

/-- Rule 5 (combined moderate attack) of `analyze`, as a pure predicate:
below 3 entries `false`, otherwise at least 2 of the three moderate
signals. -/
def DDoSDetector.combined_b (d : DDoSDetector) (cur : AggregatedMetrics) : Bool :=
  if d.aggregated_history.length < 3 then false
  else
    decide (2 ≤ (if mean_of d.rates * (3 / 2) < (cur.incoming_attempts : ℚ) then 1 else 0)
      + (if cur.success_rate < mean_of d.success_rates * (3 / 5) then 1 else 0)
      + (if mean_of d.packets * 2 < (cur.request_total : ℚ) then (1 : ℕ) else 0))

/-- A concrete detector state used to witness the anomaly theorems: two
history entries with `incoming_attempts` 0 and 2, `sigma_threshold = 0`,
and a packet-flood threshold so high the flood rule is irrelevant. -/
def analyzeWitnessDetector : DDoSDetector :=
  { aggregated_history := [⟨0, 0, 0, 0⟩, ⟨0, 2, 0, 0⟩]
    max_history_size := 50
    sigma_threshold := 0
    packet_flood_threshold := 1000000 }

/-! # Theorems -/

/-! ## Shared lemmas -/

/-- `DisconnectPacket.serialize` produces exactly the §4.A frame layout. -/
theorem serialize_eq_claimed_frame (reason : List ℕ) :
    DisconnectPacket.serialize reason = claimed_disconnect_frame reason := by
  simp [DisconnectPacket.serialize, claimed_disconnect_frame, write_string,
    List.append_assoc]

/-- C8: the source applies no per-frame byte cap: serialization never
fails, and for every reason — no matter how long — the produced bytes are
`[varint total length][varint packet id 0x19][varint body length][UTF-8 body]`. -/
theorem disconnect_serialize_frame (reason : List ℕ) :
    DisconnectPacket.serialize reason = claimed_disconnect_frame reason :=
  serialize_eq_claimed_frame reason

/-- C8 counterexample: a reason of `2 ^ 21 + 1` bytes — longer than the
2 MiB frame bound of the Minecraft protocol, the natural candidate for an
"implementation-chosen per-frame byte cap" — still serializes successfully
to the §4.A frame: no `InvalidData` failure path exists in
`DisconnectPacket::serialize`. -/
theorem disconnect_serialize_no_cap_counterexample :
    2 ^ 21 < (List.replicate (2 ^ 21 + 1) 65).length
    ∧ DisconnectPacket.serialize (List.replicate (2 ^ 21 + 1) 65)
        = claimed_disconnect_frame (List.replicate (2 ^ 21 + 1) 65) :=
  ⟨by rw [List.length_replicate]; norm_num, serialize_eq_claimed_frame _⟩
/-! ## C2: ASN blacklisting -/

/-- C2 counterexample: an IP whose ASN is blacklisted but whose cache
status is `AllowListed` is admitted with no cache write and no
`AsnBlocked` rejection, so the claim's unconditional quantification over
IPs with blacklisted ASNs fails. -/
theorem asn_blacklist_allowlisted_counterexample :
    (is_valid_connection "203.0.113.9" ⟨2, .ok true, .ok true, 1, true, true⟩).1 = .ok
    ∧ (is_valid_connection "203.0.113.9" ⟨2, .ok true, .ok true, 1, true, true⟩).1
        ≠ .reject (.asnBlocked "203.0.113.9")
    ∧ (is_valid_connection "203.0.113.9" ⟨2, .ok true, .ok true, 1, true, true⟩).2 = [] := by
  decide

/-- C2 (amended): for every IP whose cache lookup returned neither
`Blocked` nor `AllowListed`, whose ASN is blacklisted or whose ASN lookup
failed (`unwrap_or(true)`), and whose cache write succeeds, validation
writes the IP to the block cache as `Blocked` with TTL ≥ 3600 seconds and
rejects the connection with `AsnBlocked`. -/
theorem asn_blacklist_blocks (ip : String) (env : ValidationEnv)
    (h1 : env.cacheStatus ≠ memcachedIpBlocked)
    (h2 : env.cacheStatus ≠ memcachedIpWhiteList)
    (h3 : unwrapOr env.asnLookup true = true)
    (h4 : env.asnWriteOk = true) :
    (is_valid_connection ip env).1 = .reject (.asnBlocked ip)
    ∧ ∃ ttl, 3600 ≤ ttl
        ∧ VEvent.cacheWrite ip memcachedIpBlocked ttl ∈ (is_valid_connection ip env).2 := by
  refine ⟨?_, 3600, le_refl _, ?_⟩ <;>
    simp [is_valid_connection, h1, h2, h3, h4]

/-- C2 witness: a concrete environment satisfying the amended claim's
hypotheses, with the conclusion obtained from `asn_blacklist_blocks`. -/
theorem asn_blacklist_blocks_witness :
    (is_valid_connection "203.0.113.7" ⟨0, .error (), .ok false, 0, true, true⟩).1
        = .reject (.asnBlocked "203.0.113.7")
    ∧ ∃ ttl, 3600 ≤ ttl
        ∧ VEvent.cacheWrite "203.0.113.7" memcachedIpBlocked ttl
            ∈ (is_valid_connection "203.0.113.7" ⟨0, .error (), .ok false, 0, true, true⟩).2 :=
  asn_blacklist_blocks "203.0.113.7" ⟨0, .error (), .ok false, 0, true, true⟩
    (by decide) (by decide) rfl rfl

/-! ## C9: failed cache writes -/

/-- C9 counterexample: a failed block-cache write is not logged-and-dropped.
In the admission pipeline (ASN hit, write fails) validation panics instead
of proceeding with the reject; in the relay rate limiter (count over cap,
write fails) the `?` operator aborts the relay with the cache error. -/
theorem cache_write_failure_counterexample :
    (is_valid_connection "198.51.100.7" ⟨0, .ok true, .ok true, 0, false, true⟩).1 = .panic
    ∧ (rate_limit_check 5 6 "198.51.100.7" false).1 = .errReturn .memcachedError := by
  decide

/-- C9 (amended): a block-cache write failure is not tolerated: in the
admission pipeline the `.unwrap()` on the cache `set` makes validation
panic instead of completing the reject, and in the in-relay rate limiter
the failed write aborts the relay with the propagated cache error instead
of continuing. -/
theorem cache_write_failure_behavior (ip : String) (env : ValidationEnv)
    (mrpm curr : Int) :
    (env.cacheStatus ≠ memcachedIpBlocked → env.cacheStatus ≠ memcachedIpWhiteList →
      unwrapOr env.asnLookup true = true → env.asnWriteOk = false →
      (is_valid_connection ip env).1 = .panic)
    ∧ (mrpm < curr →
        (rate_limit_check mrpm curr ip false).1 = .errReturn .memcachedError) := by
  constructor
  · intro h1 h2 h3 h4
    simp [is_valid_connection, h1, h2, h3, h4]
  · intro h
    simp [rate_limit_check, h]

/-- C9 witness: both amended behaviors at concrete inputs, via
`cache_write_failure_behavior`. -/
theorem cache_write_failure_behavior_witness :
    (is_valid_connection "198.51.100.8" ⟨0, .ok true, .ok true, 0, false, true⟩).1 = .panic
    ∧ (rate_limit_check 5 6 "198.51.100.8" false).1 = .errReturn .memcachedError :=
  ⟨(cache_write_failure_behavior "198.51.100.8" ⟨0, .ok true, .ok true, 0, false, true⟩
      5 6).1 (by decide) (by decide) rfl rfl,
   (cache_write_failure_behavior "198.51.100.8" ⟨0, .ok true, .ok true, 0, false, true⟩
      5 6).2 (by decide)⟩

/-! ## C1: country check gated by the protection mode -/

/-- C1 counterexample: in a case the claim covers — protection mode 1,
cache miss, ASN clean, positive country hit — a failed cache write makes
the country branch's `.unwrap()` on the `set` panic: the country blacklist
was consulted and hit, the `Blocked` write was attempted, yet validation
does not reject with `CountryBlocked`. -/
theorem country_hit_failed_write_counterexample :
    VEvent.countryConsulted
        ∈ (is_valid_connection "192.0.2.66" ⟨0, .ok false, .ok true, 1, true, false⟩).2
    ∧ (is_valid_connection "192.0.2.66" ⟨0, .ok false, .ok true, 1, true, false⟩).1
        = .panic
    ∧ (is_valid_connection "192.0.2.66" ⟨0, .ok false, .ok true, 1, true, false⟩).1
        ≠ .reject (.countryBlocked "192.0.2.66") := by
  decide

/-- C1 (amended): assuming the `ddos_mode` gauge holds 0 or 1 (its only
writers set exactly those values), the country blacklist is consulted if
and only if the gauge is 1, the cache lookup returned neither `Blocked`
nor `AllowListed`, and the ASN check passed; whenever it is consulted, a
positive hit attempts the `Blocked` cache write and, when that write
succeeds, rejects with `CountryBlocked` — when the write fails, the
`.unwrap()` on the `set` makes validation panic instead of rejecting. -/
theorem country_check_iff_ddos_mode (ip : String) (env : ValidationEnv)
    (hmode : env.ddosMode = 0 ∨ env.ddosMode = 1) :
    (VEvent.countryConsulted ∈ (is_valid_connection ip env).2 ↔
      (env.ddosMode = 1 ∧ env.cacheStatus ≠ memcachedIpBlocked
        ∧ env.cacheStatus ≠ memcachedIpWhiteList
        ∧ unwrapOr env.asnLookup true = false))
    ∧ (VEvent.countryConsulted ∈ (is_valid_connection ip env).2 →
        unwrapOr env.countryLookup true = true → env.countryWriteOk = true →
        (is_valid_connection ip env).1 = .reject (.countryBlocked ip)
          ∧ VEvent.cacheWrite ip memcachedIpBlocked 3600 ∈ (is_valid_connection ip env).2)
    ∧ (VEvent.countryConsulted ∈ (is_valid_connection ip env).2 →
        unwrapOr env.countryLookup true = true → env.countryWriteOk = false →
        (is_valid_connection ip env).1 = .panic
          ∧ VEvent.cacheWrite ip memcachedIpBlocked 3600 ∈ (is_valid_connection ip env).2) := by
  unfold is_valid_connection
  split_ifs with h1 h2 h3 h4 h5 h6 h7 <;>
    simp_all

/-- C1 witness: protection mode on, cache miss, ASN clean, blacklisted
country, write succeeding: the country check runs and rejects with
`CountryBlocked`. -/
theorem country_check_iff_ddos_mode_witness :
    VEvent.countryConsulted
        ∈ (is_valid_connection "192.0.2.5" ⟨0, .ok false, .ok true, 1, true, true⟩).2
    ∧ (is_valid_connection "192.0.2.5" ⟨0, .ok false, .ok true, 1, true, true⟩).1
        = .reject (.countryBlocked "192.0.2.5") := by
  have h := country_check_iff_ddos_mode "192.0.2.5"
    ⟨0, .ok false, .ok true, 1, true, true⟩ (Or.inr rfl)
  have hm : VEvent.countryConsulted
      ∈ (is_valid_connection "192.0.2.5" ⟨0, .ok false, .ok true, 1, true, true⟩).2 :=
    h.1.mpr ⟨rfl, by decide, by decide, rfl⟩
  exact ⟨hm, (h.2.1 hm rfl rfl).1⟩

/-! ## C3: the reject path of `process_new` -/

/-- C3: for every connection whose validation fails (and whose client
socket accepts the write and flush), `process_new` performs exactly one
client write — the Disconnect frame whose JSON body is the red/bold chat
object carrying the error's human message — flushes, sleeps 50 ms, and
ends the trace: no upstream dial and no further socket action.  (Reason:
spec-modelled — the `login::DisconnectPacket` serializer invoked here is
declared but not present under `src/`; it is modelled per §4.A by
`login_disconnect_serialize`.) -/
theorem reject_path_single_disconnect (ip : String) (env : ProcessEnv) (e : VError)
    (hv : (is_valid_connection ip env.validation).1 = .reject e)
    (hw : env.clientWriteOk = true) (hf : env.clientFlushOk = true) :
    process_new ip env =
      [.writeClient (login_disconnect_serialize (chat_json e.message)),
       .flushClient, .sleepMs 50]
    ∧ ((process_new ip env).countP SocketAction.isClientWrite = 1)
    ∧ SocketAction.dialUpstream ∉ process_new ip env := by
  have h : process_new ip env =
      [.writeClient (login_disconnect_serialize (chat_json e.message)),
       .flushClient, .sleepMs 50] := by
    unfold process_new
    rw [hv, hw, hf]
    simp
  refine ⟨h, ?_, ?_⟩ <;> rw [h] <;>
    simp [List.countP_cons, SocketAction.isClientWrite]

/-- C3 witness: a cache-blocked client; the trace is the single Disconnect
frame, flush, and 50 ms sleep. -/
theorem reject_path_single_disconnect_witness :
    process_new "10.0.0.2" ⟨⟨1, .ok false, .ok false, 0, true, true⟩, true, true, true, false, true, ""⟩ =
      [.writeClient (login_disconnect_serialize
          (chat_json (VError.ipBlockedInCache "10.0.0.2").message)),
       .flushClient, .sleepMs 50]
    ∧ ((process_new "10.0.0.2"
          ⟨⟨1, .ok false, .ok false, 0, true, true⟩, true, true, true, false, true, ""⟩).countP
        SocketAction.isClientWrite = 1)
    ∧ SocketAction.dialUpstream ∉ process_new "10.0.0.2"
        ⟨⟨1, .ok false, .ok false, 0, true, true⟩, true, true, true, false, true, ""⟩ :=
  reject_path_single_disconnect "10.0.0.2"
    ⟨⟨1, .ok false, .ok false, 0, true, true⟩, true, true, true, false, true, ""⟩
    (.ipBlockedInCache "10.0.0.2") (by decide) rfl rfl

/-! ## C4: the detector's aggregation -/

/-- C4 counterexample: for the cumulative samples `(5,10,10)`, `(9,20,20)`,
`(9,30,30)` the stored history's `incoming_attempts` are `[10,10,20]` while
deltas against the previous cumulative sample give `[10,10,10]` (the third
entry subtracts the previously stored *delta*, not the previous cumulative
sample), and the stored `total_conns` are the raw `[5,9,9]` rather than the
claimed deltas `[5,4,0]`. -/
theorem add_metrics_delta_counterexample :
    ((([⟨5, 10, 10⟩, ⟨9, 20, 20⟩, ⟨9, 30, 30⟩] : List ConnectionMetrics).foldl
        DDoSDetector.add_metrics (DDoSDetector.new 50 3 5)).aggregated_history.map
      (fun e => e.incoming_attempts) = [10, 10, 20])
    ∧ ((claimed_aggregate none [⟨5, 10, 10⟩, ⟨9, 20, 20⟩, ⟨9, 30, 30⟩]).map
        (fun e => e.incoming_attempts) = [10, 10, 10])
    ∧ ((([⟨5, 10, 10⟩, ⟨9, 20, 20⟩, ⟨9, 30, 30⟩] : List ConnectionMetrics).foldl
        DDoSDetector.add_metrics (DDoSDetector.new 50 3 5)).aggregated_history.map
      (fun e => e.total_conns) = [5, 9, 9])
    ∧ ((claimed_aggregate none [⟨5, 10, 10⟩, ⟨9, 20, 20⟩, ⟨9, 30, 30⟩]).map
        (fun e => e.total_conns) = [5, 4, 0]) := by
  decide

/-- C4 (amended): the entry stored by `add_metrics` keeps `total_conns`
raw; `incoming_attempts` and `request_total` are reduced by the
corresponding fields of the previously *stored aggregate* (itself a delta
from the third sample on), the first sample keeping its raw values; and
`success_rate` is computed from the raw `total_conns` over the
`incoming_attempts` delta (100 when that delta is 0, via
`calculate_success_rate`). -/
theorem add_metrics_stored_entry (d : DDoSDetector) (m : ConnectionMetrics) :
    ∃ e, (d.add_metrics m).aggregated_history.getLast? = some e
      ∧ (d.aggregated_history.getLast? = none →
          e = ⟨m.total_conns, m.incoming_attempts, calculate_success_rate m,
               m.request_total⟩)
      ∧ (∀ prev, d.aggregated_history.getLast? = some prev →
          e.total_conns = m.total_conns
          ∧ e.incoming_attempts = sub64 m.incoming_attempts prev.incoming_attempts
          ∧ e.request_total = sub64 m.request_total prev.request_total
          ∧ e.success_rate = calculate_success_rate
              ⟨m.total_conns, sub64 m.incoming_attempts prev.incoming_attempts,
               sub64 m.request_total prev.request_total⟩) := by
  cases hprev : d.aggregated_history.getLast? with
  | none =>
    refine ⟨⟨m.total_conns, m.incoming_attempts, calculate_success_rate m, m.request_total⟩,
      ?_, fun _ => rfl, fun prev hsome => Option.noConfusion hsome⟩
    unfold DDoSDetector.add_metrics
    rw [hprev]
    simp
  | some prev0 =>
    refine ⟨⟨m.total_conns, sub64 m.incoming_attempts prev0.incoming_attempts,
        calculate_success_rate ⟨m.total_conns, sub64 m.incoming_attempts prev0.incoming_attempts,
          sub64 m.request_total prev0.request_total⟩,
        sub64 m.request_total prev0.request_total⟩, ?_, ?_, ?_⟩
    · unfold DDoSDetector.add_metrics
      rw [hprev]
      simp
    · intro hnone
      exact Option.noConfusion hnone
    · intro prev hsome
      obtain rfl : prev0 = prev := Option.some.inj hsome
      exact ⟨rfl, rfl, rfl, rfl⟩

/-- C4 witness: with a stored previous aggregate `(1,7,·,4)` and the new
cumulative sample `(2,12,10)`, the appended entry carries the deltas
`12 - 7` and `10 - 4`, via `add_metrics_stored_entry`. -/
theorem add_metrics_stored_entry_witness :
    ∃ e, ((⟨[⟨1, 7, 9, 4⟩], 50, 3, 5⟩ : DDoSDetector).add_metrics
        ⟨2, 12, 10⟩).aggregated_history.getLast? = some e
      ∧ e.incoming_attempts = sub64 12 7
      ∧ e.request_total = sub64 10 4 := by
  obtain ⟨e, he, -, hsome⟩ :=
    add_metrics_stored_entry (⟨[⟨1, 7, 9, 4⟩], 50, 3, 5⟩ : DDoSDetector) ⟨2, 12, 10⟩
  obtain ⟨-, h1, h2, -⟩ := hsome ⟨1, 7, 9, 4⟩ (by decide)
  exact ⟨e, he, h1, h2⟩

/-! ## C6: the history FIFO bound -/

/-- `add_metrics` never changes the configured bound. -/
theorem add_metrics_max (d : DDoSDetector) (m : ConnectionMetrics) :
    (d.add_metrics m).max_history_size = d.max_history_size := rfl

/-- One `add_metrics` step preserves `length ≤ max_history_size` when the
bound is at least 1. -/
theorem add_metrics_length_le (d : DDoSDetector) (m : ConnectionMetrics)
    (hmax : 1 ≤ d.max_history_size)
    (h : d.aggregated_history.length ≤ d.max_history_size) :
    (d.add_metrics m).aggregated_history.length ≤ d.max_history_size := by
  unfold DDoSDetector.add_metrics
  by_cases hc : d.max_history_size ≤ d.aggregated_history.length
  · simp [hc, List.length_tail]
    omega
  · simp [hc]
    omega

/-- The configured bound survives any `foldl` of samples. -/
theorem foldl_add_metrics_max (ms : List ConnectionMetrics) :
    ∀ d : DDoSDetector,
      (ms.foldl DDoSDetector.add_metrics d).max_history_size = d.max_history_size := by
  induction ms with
  | nil => intro d; rfl
  | cons m rest ih => intro d; rw [List.foldl_cons, ih, add_metrics_max]

/-- The FIFO invariant over any `foldl` of samples. -/
theorem foldl_add_metrics_length_le (ms : List ConnectionMetrics) :
    ∀ d : DDoSDetector, 1 ≤ d.max_history_size →
      d.aggregated_history.length ≤ d.max_history_size →
      (ms.foldl DDoSDetector.add_metrics d).aggregated_history.length
        ≤ (ms.foldl DDoSDetector.add_metrics d).max_history_size := by
  induction ms with
  | nil => intro d _ h; exact h
  | cons m rest ih =>
    intro d hmax h
    exact ih (d.add_metrics m) (by rw [add_metrics_max]; exact hmax)
      (by rw [add_metrics_max]; exact add_metrics_length_le d m hmax h)

/-- C6: starting from a detector constructed with `max_history_size ≥ 1`,
no sequence of `add_metrics` calls ever pushes the history length beyond
the bound; and whenever the history is full, the next append evicts
exactly the oldest entry (the new history minus its appended entry is the
old history minus its head). -/
theorem history_bound_and_eviction (n : ℕ) (hn : 1 ≤ n) (s p : ℚ)
    (ms : List ConnectionMetrics) :
    ((ms.foldl DDoSDetector.add_metrics (DDoSDetector.new n s p)).aggregated_history.length
      ≤ n)
    ∧ (∀ d : DDoSDetector, ∀ m : ConnectionMetrics, d.max_history_size = n →
        d.aggregated_history.length = n →
        (d.add_metrics m).aggregated_history.length = n
          ∧ (d.add_metrics m).aggregated_history.dropLast = d.aggregated_history.tail) := by
  constructor
  · have h := foldl_add_metrics_length_le ms (DDoSDetector.new n s p) hn
      (by simp [DDoSDetector.new])
    rwa [foldl_add_metrics_max ms (DDoSDetector.new n s p)] at h
  · intro d m hdm hlen
    unfold DDoSDetector.add_metrics
    have hc : d.max_history_size ≤ d.aggregated_history.length := by omega
    simp [hc, List.length_tail]
    omega

/-- C6 witness: a bound of 2 holds after three appends, via
`history_bound_and_eviction`. -/
theorem history_bound_and_eviction_witness :
    (1 : ℕ) ≤ 2
    ∧ (([⟨1, 1, 1⟩, ⟨2, 2, 2⟩, ⟨3, 3, 3⟩] : List ConnectionMetrics).foldl
        DDoSDetector.add_metrics (DDoSDetector.new 2 3 5)).aggregated_history.length ≤ 2 :=
  ⟨by decide,
   (history_bound_and_eviction 2 (by decide) 3 5
     [⟨1, 1, 1⟩, ⟨2, 2, 2⟩, ⟨3, 3, 3⟩]).1⟩

/-! ## C7: varint round-trip -/

/-- OR of values occupying disjoint bit ranges is addition. -/
theorem lor_shifted_add (a b k : ℕ) (h : a < 2 ^ k) :
    a ||| 2 ^ k * b = a + 2 ^ k * b := by
  rw [Nat.lor_comm, ← Nat.mul_add_lt_is_or h b]
  omega

/-- Masking with `0x7F` is reduction modulo 128. -/
theorem and_127_eq_mod (x : ℕ) : x &&& 127 = x % 128 := by
  have h := Nat.and_pow_two_sub_one_eq_mod x 7
  norm_num at h
  exact h

/-- Masking with `0x80` extracts bit 7. -/
theorem and_128_eq_testBit (x : ℕ) : x &&& 128 = (x.testBit 7).toNat * 128 := by
  have h := Nat.and_two_pow x 7
  norm_num at h
  exact h

/-- A continuation byte `(n % 128) | 0x80` has its high bit set. -/
theorem cont_byte_and_128_ne_zero (n : ℕ) : (n % 128 + 128) &&& 128 ≠ 0 := by
  rw [and_128_eq_testBit, Nat.testBit_to_div_mod]
  have h : (n % 128 + 128) / 2 ^ 7 % 2 = 1 := by omega
  simp [h]

/-- A final byte `n < 128` has its high bit clear. -/
theorem final_byte_and_128_eq_zero (n : ℕ) (h : n < 128) : n &&& 128 = 0 := by
  rw [and_128_eq_testBit, Nat.testBit_lt_two_pow (show n < 2 ^ 7 by omega)]
  rfl

/-- One unfolding of the `read_varint` loop. -/
theorem read_varint_loop_cons (b : ℕ) (rest : List ℕ) (result shift : ℕ) :
    read_varint_loop (b :: rest) result shift =
      (if b &&& 128 = 0 then
        .ok (result ||| ((b &&& 127) <<< shift) % 2 ^ 32, rest)
      else if 32 ≤ shift + 7 then .error .ioInvalidData
      else read_varint_loop rest (result ||| ((b &&& 127) <<< shift) % 2 ^ 32)
        (shift + 7)) := rfl

/-- The decoding loop inverts the fuelled encoding loop: starting at group
`shift = 7 * (5 - fuel)` with an accumulator below `2 ^ shift` and a value
small enough never to truncate, decoding the emitted bytes yields the
accumulator plus the value shifted into place, leaving the rest of the
input unread. -/
theorem read_write_varint_fuel (fuel : ℕ) :
    ∀ n result shift rest, fuel ≤ 5 → n < 128 ^ fuel → shift = 7 * (5 - fuel) →
      result < 2 ^ shift → n * 2 ^ shift < 2 ^ 31 →
      read_varint_loop (write_varint_fuel fuel n ++ rest) result shift
        = .ok (result + n * 2 ^ shift, rest) := by
  induction fuel with
  | zero =>
    intro n result shift rest _ hn hs hr _
    have hn0 : n = 0 := by simpa using hn
    subst hn0
    have h0 : (0 : ℕ) &&& 128 = 0 := rfl
    rw [show write_varint_fuel 0 0 = [0] from rfl, List.cons_append, List.nil_append,
      read_varint_loop_cons, if_pos h0]
    have hlor := lor_shifted_add result 0 shift hr
    simp at hlor ⊢
  | succ fuel ih =>
    intro n result shift rest hf5 hn hs hr hbound
    by_cases h128 : n < 128
    · rw [show write_varint_fuel (fuel + 1) n = [n] by rw [write_varint_fuel, if_pos h128],
        List.cons_append, List.nil_append, read_varint_loop_cons,
        if_pos (final_byte_and_128_eq_zero n h128)]
      rw [and_127_eq_mod, Nat.mod_eq_of_lt h128, Nat.shiftLeft_eq,
        Nat.mod_eq_of_lt (lt_trans hbound (by norm_num)),
        show n * 2 ^ shift = 2 ^ shift * n by ring, lor_shifted_add result n shift hr]
    · have hfuel1 : 1 ≤ fuel := by
        by_contra hc
        have : fuel = 0 := by omega
        subst this
        simp at hn
        omega
      rw [show write_varint_fuel (fuel + 1) n
            = (n % 128 + 128) :: write_varint_fuel fuel (n / 128) by
          rw [write_varint_fuel, if_neg h128],
        List.cons_append, read_varint_loop_cons,
        if_neg (cont_byte_and_128_ne_zero n),
        if_neg (show ¬(32 ≤ shift + 7) by omega)]
      rw [and_127_eq_mod, show (n % 128 + 128) % 128 = n % 128 by omega, Nat.shiftLeft_eq]
      have hmlt : n % 128 * 2 ^ shift < 2 ^ 31 :=
        lt_of_le_of_lt (Nat.mul_le_mul_right _ (Nat.mod_le n 128)) hbound
      rw [Nat.mod_eq_of_lt (lt_trans hmlt (by norm_num)),
        show n % 128 * 2 ^ shift = 2 ^ shift * (n % 128) by ring,
        lor_shifted_add result (n % 128) shift hr]
      have hdiv : n / 128 < 128 ^ fuel := by
        rw [Nat.div_lt_iff_lt_mul (by norm_num : (0 : ℕ) < 128)]
        calc n < 128 ^ (fuel + 1) := hn
          _ = 128 ^ fuel * 128 := by rw [pow_succ]
      have hacc : result + 2 ^ shift * (n % 128) < 2 ^ (shift + 7) := by
        have h1 : 2 ^ shift * (n % 128) ≤ 2 ^ shift * 127 :=
          Nat.mul_le_mul_left _ (by omega)
        have h2 : (2 : ℕ) ^ (shift + 7) = 2 ^ shift * 128 := by
          rw [pow_add]; norm_num
        omega
      have hbound2 : n / 128 * 2 ^ (shift + 7) < 2 ^ 31 := by
        have h2 : (2 : ℕ) ^ (shift + 7) = 2 ^ shift * 128 := by
          rw [pow_add]; norm_num
        have h3 : n / 128 * 2 ^ (shift + 7) = n / 128 * 128 * 2 ^ shift := by
          rw [h2]; ring
        have h4 : n / 128 * 128 * 2 ^ shift ≤ n * 2 ^ shift :=
          Nat.mul_le_mul_right _ (Nat.div_mul_le_self n 128)
        omega
      have hrec := ih (n / 128) (result + 2 ^ shift * (n % 128)) (shift + 7) rest
        (by omega) hdiv (by omega) hacc hbound2
      rw [hrec]
      have harith : result + 2 ^ shift * (n % 128) + n / 128 * 2 ^ (shift + 7)
          = result + n * 2 ^ shift := by
        have h2 : (2 : ℕ) ^ (shift + 7) = 2 ^ shift * 128 := by
          rw [pow_add]; norm_num
        have hsplit : n % 128 + 128 * (n / 128) = n := Nat.mod_add_div n 128
        calc result + 2 ^ shift * (n % 128) + n / 128 * 2 ^ (shift + 7)
            = result + 2 ^ shift * (n % 128 + 128 * (n / 128)) := by rw [h2]; ring
          _ = result + 2 ^ shift * n := by rw [hsplit]
          _ = result + n * 2 ^ shift := by ring
      rw [harith]

/-- C7: for every `n` in `[0, 2^31)`, decoding the encoder's output yields
`n` with no input left over; and the decoder fails with the
`InvalidData`-kind error as soon as a fifth byte still carries the
continuation bit. -/
theorem varint_roundtrip_and_overflow :
    (∀ n : ℕ, n < 2 ^ 31 → read_varint (write_varint n) = .ok (n, []))
    ∧ (∀ b0 b1 b2 b3 b4 : ℕ, ∀ rest : List ℕ,
        b0 &&& 128 ≠ 0 → b1 &&& 128 ≠ 0 → b2 &&& 128 ≠ 0 → b3 &&& 128 ≠ 0 →
        b4 &&& 128 ≠ 0 →
        read_varint (b0 :: b1 :: b2 :: b3 :: b4 :: rest) = .error .ioInvalidData) := by
  constructor
  · intro n hn
    have h := read_write_varint_fuel 5 n 0 0 [] (le_refl 5)
      (by norm_num at hn ⊢; omega) (by norm_num) (by norm_num) (by simpa using hn)
    rw [List.append_nil] at h
    simpa [read_varint, write_varint] using h
  · intro b0 b1 b2 b3 b4 rest h0 h1 h2 h3 h4
    rw [read_varint, read_varint_loop_cons, if_neg h0,
      if_neg (by norm_num : ¬(32 ≤ 0 + 7))]
    rw [read_varint_loop_cons, if_neg h1, if_neg (by norm_num : ¬(32 ≤ 0 + 7 + 7))]
    rw [read_varint_loop_cons, if_neg h2, if_neg (by norm_num : ¬(32 ≤ 0 + 7 + 7 + 7))]
    rw [read_varint_loop_cons, if_neg h3, if_neg (by norm_num : ¬(32 ≤ 0 + 7 + 7 + 7 + 7))]
    rw [read_varint_loop_cons, if_neg h4,
      if_pos (by norm_num : 32 ≤ 0 + 7 + 7 + 7 + 7 + 7)]

/-- C7 witness: the round trip at `n = 300` and the overflow error on five
continuation bytes `0x80`, via `varint_roundtrip_and_overflow`. -/
theorem varint_roundtrip_and_overflow_witness :
    ((300 : ℕ) < 2 ^ 31 ∧ read_varint (write_varint 300) = .ok (300, []))
    ∧ read_varint [128, 128, 128, 128, 128] = .error .ioInvalidData :=
  ⟨⟨by norm_num, varint_roundtrip_and_overflow.1 300 (by norm_num)⟩,
   varint_roundtrip_and_overflow.2 128 128 128 128 128 []
     (by decide) (by decide) (by decide) (by decide) (by decide)⟩

/-! ## C5 / C10: the analysis verdict -/

/-- `statistical_mean` succeeds on any nonempty list, with `mean_of` as
payload. -/
theorem statistical_mean_ok (l : List ℚ) (h : l ≠ []) :
    statistical_mean l = .ok (mean_of l) := by
  simp [statistical_mean, mean_of, h]

/-- `standard_deviation_sq` succeeds on lists with at least 2 elements,
with `var_of` as payload when called at `mean_of`. -/
theorem standard_deviation_sq_ok (l : List ℚ) (h : 2 ≤ l.length) :
    standard_deviation_sq l (mean_of l) = .ok (var_of l) := by
  simp [standard_deviation_sq, var_of, Nat.not_lt.mpr h]

/-- `check_combined_attack` never errors: its verdict is the pure
`combined_b`. -/
theorem check_combined_attack_ok (d : DDoSDetector) (cur : AggregatedMetrics)
    (h : d.aggregated_history ≠ []) :
    d.check_combined_attack cur = .ok (d.combined_b cur) := by
  unfold DDoSDetector.check_combined_attack DDoSDetector.combined_b
  by_cases h3 : d.aggregated_history.length < 3
  · simp [h3]
  · have e1 := statistical_mean_ok
      (d.aggregated_history.map fun m => (m.incoming_attempts : ℚ)) (by simpa using h)
    have e2 := statistical_mean_ok
      (d.aggregated_history.map fun m => m.success_rate) (by simpa using h)
    have e3 := statistical_mean_ok
      (d.aggregated_history.map fun m => (m.request_total : ℚ)) (by simpa using h)
    simp [h3, DDoSDetector.check_moderate_increase, DDoSDetector.check_moderate_decrease,
      e1, e2, e3, Except.bind,
      DDoSDetector.rates, DDoSDetector.success_rates, DDoSDetector.packets]

/-- With at least two history entries, `analyze` succeeds and its verdict
is exactly the disjunction of the five rules evaluated at `back()`. -/
theorem analyze_eq_of_two_le (d : DDoSDetector) (cur : AggregatedMetrics)
    (h2 : 2 ≤ d.aggregated_history.length)
    (hcur : d.aggregated_history.getLast? = some cur) :
    d.analyze = .ok (d.is_packet_flood cur
      || (d.rate_anomaly_b cur || d.success_anomaly_b cur || d.packet_anomaly_b cur
          || d.combined_b cur)) := by
  have hne : d.aggregated_history ≠ [] := by
    intro hx
    rw [hx] at h2
    simp at h2
  unfold DDoSDetector.analyze
  rw [if_neg (by omega : ¬(d.aggregated_history.length < 2)), hcur]
  by_cases hpf : d.is_packet_flood cur
  · simp [hpf]
  · have e1 := statistical_mean_ok
      (d.aggregated_history.map fun m => (m.incoming_attempts : ℚ)) (by simpa using hne)
    have e2 := statistical_mean_ok
      (d.aggregated_history.map fun m => m.success_rate) (by simpa using hne)
    have e3 := statistical_mean_ok
      (d.aggregated_history.map fun m => (m.request_total : ℚ)) (by simpa using hne)
    have s1 := standard_deviation_sq_ok
      (d.aggregated_history.map fun m => (m.incoming_attempts : ℚ)) (by simpa using h2)
    have s2 := standard_deviation_sq_ok
      (d.aggregated_history.map fun m => m.success_rate) (by simpa using h2)
    have s3 := standard_deviation_sq_ok
      (d.aggregated_history.map fun m => (m.request_total : ℚ)) (by simpa using h2)
    simp [hpf, e1, e2, e3, s1, s2, s3,
      check_combined_attack_ok d cur hne, Except.bind,
      DDoSDetector.rate_anomaly_b, DDoSDetector.success_anomaly_b,
      DDoSDetector.packet_anomaly_b,
      DDoSDetector.rates, DDoSDetector.success_rates, DDoSDetector.packets]

/-- The population variance is nonnegative. -/
theorem var_of_nonneg (l : List ℚ) : 0 ≤ var_of l := by
  unfold var_of
  apply div_nonneg
  · apply List.sum_nonneg
    intro x hx
    obtain ⟨v, -, rfl⟩ := List.mem_map.mp hx
    positivity
  · positivity

/-- C10: `analyze` never returns an error: on every detector state the
history-length guard keeps the `InsufficientData` branches of
`statistical_mean` and `standard_deviation` unreachable, and a boolean
verdict is produced. -/
theorem analyze_total (d : DDoSDetector) : ∃ b, d.analyze = .ok b := by
  by_cases h : d.aggregated_history.length < 2
  · exact ⟨false, by unfold DDoSDetector.analyze; rw [if_pos h]⟩
  · push_neg at h
    have hne : d.aggregated_history ≠ [] := by
      intro hx
      rw [hx] at h
      simp at h
    obtain ⟨cur, hcur⟩ := Option.isSome_iff_exists.mp (List.getLast?_isSome.mpr hne)
    exact ⟨_, analyze_eq_of_two_le d cur h hcur⟩

/-- C5: `analyze` returns `false` whenever the history holds fewer than 2
samples; with at least 2 samples it returns `true` iff one of the five
rules (packet flood, rate / success / packet anomaly, combined check)
holds for `back()` — which is included in the statistics — and in
particular it returns `true` whenever the current `incoming_attempts`
exceeds the mean plus `sigma` times the population standard deviation of
`incoming_attempts` over the full history (for the nonnegative `sigma`
every call site uses). -/
theorem analyze_verdict (d : DDoSDetector) :
    (d.aggregated_history.length < 2 → d.analyze = .ok false)
    ∧ (∀ cur, 2 ≤ d.aggregated_history.length →
        d.aggregated_history.getLast? = some cur →
        (d.analyze = .ok true ↔
          (d.is_packet_flood cur || (d.rate_anomaly_b cur || d.success_anomaly_b cur
            || d.packet_anomaly_b cur || d.combined_b cur)) = true))
    ∧ (∀ cur, 2 ≤ d.aggregated_history.length →
        d.aggregated_history.getLast? = some cur →
        0 ≤ d.sigma_threshold →
        (((mean_of d.rates : ℚ) : ℝ)
            + ((d.sigma_threshold : ℚ) : ℝ) * Real.sqrt ((var_of d.rates : ℚ) : ℝ)
          < (cur.incoming_attempts : ℝ) →
          d.analyze = .ok true)) := by
  refine ⟨?_, ?_, ?_⟩
  · intro h
    unfold DDoSDetector.analyze
    rw [if_pos h]
  · intro cur h2 hcur
    rw [analyze_eq_of_two_le d cur h2 hcur]
    constructor
    · intro h
      exact Except.ok.inj h
    · intro h
      rw [h]
  · intro cur h2 hcur hsig hlt
    have hV : (0 : ℝ) ≤ ((var_of d.rates : ℚ) : ℝ) := by
      exact_mod_cast var_of_nonneg d.rates
    have hS : (0 : ℝ) ≤ ((d.sigma_threshold : ℚ) : ℝ) := by exact_mod_cast hsig
    have hprod : (0 : ℝ) ≤ ((d.sigma_threshold : ℚ) : ℝ)
        * Real.sqrt ((var_of d.rates : ℚ) : ℝ) :=
      mul_nonneg hS (Real.sqrt_nonneg _)
    have h1R : ((mean_of d.rates : ℚ) : ℝ) < (cur.incoming_attempts : ℝ) := by linarith
    have h1Q : mean_of d.rates < (cur.incoming_attempts : ℚ) := by exact_mod_cast h1R
    have h1 : 0 < (cur.incoming_attempts : ℚ) - mean_of d.rates := by linarith
    have h2R : ((d.sigma_threshold : ℚ) : ℝ) * Real.sqrt ((var_of d.rates : ℚ) : ℝ)
        < (cur.incoming_attempts : ℝ) - ((mean_of d.rates : ℚ) : ℝ) := by linarith
    have hsqR : (((d.sigma_threshold : ℚ) : ℝ)) ^ 2 * ((var_of d.rates : ℚ) : ℝ)
        < ((cur.incoming_attempts : ℝ) - ((mean_of d.rates : ℚ) : ℝ)) ^ 2 := by
      have hp := pow_lt_pow_left₀ h2R hprod (two_ne_zero)
      calc (((d.sigma_threshold : ℚ) : ℝ)) ^ 2 * ((var_of d.rates : ℚ) : ℝ)
          = (((d.sigma_threshold : ℚ) : ℝ) * Real.sqrt ((var_of d.rates : ℚ) : ℝ)) ^ 2 := by
            rw [mul_pow, Real.sq_sqrt hV]
        _ < ((cur.incoming_attempts : ℝ) - ((mean_of d.rates : ℚ) : ℝ)) ^ 2 := hp
    have hsqQ : d.sigma_threshold ^ 2 * var_of d.rates
        < ((cur.incoming_attempts : ℚ) - mean_of d.rates) ^ 2 := by
      exact_mod_cast hsqR
    have hrb : d.rate_anomaly_b cur = true := by
      simp only [DDoSDetector.rate_anomaly_b, gt_mean_plus_sigma_stddev, decide_eq_true_eq]
      exact ⟨h1, hsqQ⟩
    rw [analyze_eq_of_two_le d cur h2 hcur, hrb]
    simp

/-- C5 witness: on `analyzeWitnessDetector` (history `[0, 2]` for
`incoming_attempts`, `sigma = 0`) the rate rule fires — `2 > 1 + 0·1` —
and `analyze` returns `Ok(true)`, via `analyze_verdict`. -/
theorem analyze_verdict_witness :
    (0 : ℚ) ≤ analyzeWitnessDetector.sigma_threshold
    ∧ analyzeWitnessDetector.analyze = .ok true := by
  have hmean : mean_of analyzeWitnessDetector.rates = 1 := by
    norm_num [mean_of, DDoSDetector.rates, analyzeWitnessDetector]
  have hvar : var_of analyzeWitnessDetector.rates = 1 := by
    norm_num [var_of, mean_of, DDoSDetector.rates, analyzeWitnessDetector]
  refine ⟨by norm_num [analyzeWitnessDetector], ?_⟩
  refine (analyze_verdict analyzeWitnessDetector).2.2 ⟨0, 2, 0, 0⟩
    (by norm_num [analyzeWitnessDetector]) rfl
    (by norm_num [analyzeWitnessDetector]) ?_
  rw [hmean, hvar]
  have hσ : analyzeWitnessDetector.sigma_threshold = 0 := rfl
  rw [hσ]
  push_cast
  rw [Real.sqrt_one]
  norm_num

